import Mathlib

/-
Verification of the dogswatch intent package
(src/workspaces/dogswatch/pkg/intent/intent.go).

The Intent value type, its predicates (Waiting, Errored, Stuck, Realized,
InProgress, Terminal, Actionable, Intrusive, HasUpdateAvailable) and its
projections (Projected, projectActive, Reset, Clone, Given) are embedded
directly from the Go source. The marker package of constants and the
progression-table function calculateNext are referenced by intent.go but are
not part of the provided source; they are modelled from the specification
(sections 3 and 4.1) and say so in their doc comments.
-/

/-- Modelled from the spec: the marker package of token constants is not in
the provided source. The Action tokens are `Unknown, Reset, Stabilize,
PrepareUpdate, PerformUpdate, RebootUpdate`; they are distinct non-empty
strings, and `Unknown` is the unset sentinel distinct from the empty string. -/
def NodeActionUnknown : String := "unknown"

/-- Modelled from the spec: first element of the forward-progression list. -/
def NodeActionReset : String := "reset-state"

/-- Modelled from the spec: second element of the forward-progression list.
The Go source spells this constant NodeActionStablize. -/
def NodeActionStablize : String := "stabilize"

/-- Modelled from the spec: third element of the forward-progression list. -/
def NodeActionPrepareUpdate : String := "prepare-update"

/-- Modelled from the spec: fourth element of the forward-progression list. -/
def NodeActionPerformUpdate : String := "perform-update"

/-- Modelled from the spec: terminal element of the forward-progression
list; its successor is itself. -/
def NodeActionRebootUpdate : String := "reboot-update"

/-- Modelled from the spec: the Status token enumeration is the empty string
(unset), Unknown, Ready and Error; the named tokens are distinct non-empty
strings. -/
def NodeStateUnknown : String := "unknown"

/-- Modelled from the spec: the Ready status token. -/
def NodeStateReady : String := "ready"

/-- Modelled from the spec: the Error status token. -/
def NodeStateError : String := "error"

/-- Modelled from the spec: the update-availability token Available. -/
def NodeUpdateAvailable : String := "available"

/-- Modelled from the spec: the fixed tag key for the wanted action. -/
def NodeActionWanted : String := "wanted-action"

/-- Modelled from the spec: the fixed tag key for the active action. -/
def NodeActionActive : String := "active-action"

/-- Modelled from the spec: the fixed tag key for the active-action state. -/
def NodeActionActiveState : String := "active-state"

/-- Modelled from the spec: the fixed tag key for update availability. -/
def UpdateAvailableKey : String := "update-available"

/-- Modelled from the spec (section 4.1): the Progression Table function
`Next(action) -> (Action, error)`, called calculateNext in intent.go but not
present in the provided source. For `Unknown` it returns the first element of
the forward-progression list; for any non-terminal element the following
element; for the terminal element `RebootUpdate` itself; for any token not in
the table it fails with an error and returns the zero Action (the empty
string). The second component is true exactly when the lookup succeeded
(the Go error was nil). -/
def calculateNext (wanted : String) : String × Bool :=
  if wanted = NodeActionUnknown then (NodeActionReset, true)
  else if wanted = NodeActionReset then (NodeActionStablize, true)
  else if wanted = NodeActionStablize then (NodeActionPrepareUpdate, true)
  else if wanted = NodeActionPrepareUpdate then (NodeActionPerformUpdate, true)
  else if wanted = NodeActionPerformUpdate then (NodeActionRebootUpdate, true)
  else if wanted = NodeActionRebootUpdate then (NodeActionRebootUpdate, true)
  else ("", false)

/-- The Intent value aggregate from intent.go: node identity plus the
wanted/active/state/update-availability fields. The Go field types
marker.NodeAction, marker.NodeState and marker.NodeUpdate are strings. -/
structure Intent where
  NodeName : String
  Wanted : String
  Active : String
  State : String
  UpdateAvailable : String
deriving DecidableEq, Repr

/-- Go map lookup over an association list of string keys: the first binding
of the key, defaulting to the zero value (the empty string) when absent. -/
def lookupDefault : List (String × String) → String → String
  | [], _ => ""
  | (k, v) :: rest, key => if k = key then v else lookupDefault rest key

/-- GetName from intent.go: returns NodeName unchanged. -/
def Intent.GetName (i : Intent) : String := i.NodeName

/-- GetAnnotations from intent.go: the mapping with the four fixed keys
holding Wanted, Active, State and UpdateAvailable. -/
def Intent.GetAnnotations (i : Intent) : List (String × String) :=
  [(NodeActionWanted, i.Wanted),
   (NodeActionActive, i.Active),
   (NodeActionActiveState, i.State),
   (UpdateAvailableKey, i.UpdateAvailable)]

/-- GetLabels from intent.go: the mapping with the one fixed key holding
UpdateAvailable. -/
def Intent.GetLabels (i : Intent) : List (String × String) :=
  [(UpdateAvailableKey, i.UpdateAvailable)]

/-- Given from intent.go: construct an Intent from an input's name and
annotation mapping, reading the four fixed keys with missing keys defaulting
to the empty string. The Go Input interface is represented by its two
accessors' results. -/
def Given (name : String) (annos : List (String × String)) : Intent :=
  { NodeName := name
    Active := lookupDefault annos NodeActionActive
    Wanted := lookupDefault annos NodeActionWanted
    State := lookupDefault annos NodeActionActiveState
    UpdateAvailable := lookupDefault annos UpdateAvailableKey }

/-- Clone from intent.go: a copy produced by round-tripping through Given. -/
def Intent.Clone (i : Intent) : Intent := Given i.NodeName i.GetAnnotations

/-- Waiting from intent.go: true when State is Ready, the empty string,
Unknown, or Error (the switch cases), false otherwise. -/
def Intent.Waiting (i : Intent) : Bool :=
  i.State = NodeStateReady || i.State = "" ||
    i.State = NodeStateUnknown || i.State = NodeStateError

/-- Intrusive from intent.go: Wanted is RebootUpdate. -/
def Intent.Intrusive (i : Intent) : Bool :=
  i.Wanted = NodeActionRebootUpdate

/-- Errored from intent.go: State is Error. -/
def Intent.Errored (i : Intent) : Bool :=
  i.State = NodeStateError

/-- isInProgress from intent.go: the field is one of the five real
progression actions. -/
def Intent.isInProgress (_i : Intent) (field : String) : Bool :=
  field = NodeActionReset || field = NodeActionStablize ||
    field = NodeActionPrepareUpdate || field = NodeActionPerformUpdate ||
    field = NodeActionRebootUpdate

/-- HasUpdateAvailable from intent.go: UpdateAvailable is Available. -/
def Intent.HasUpdateAvailable (i : Intent) : Bool :=
  i.UpdateAvailable = NodeUpdateAvailable

/-- inUnknownState from intent.go: State is the empty string or Unknown. -/
def Intent.inUnknownState (i : Intent) : Bool :=
  i.State = "" || i.State = NodeStateUnknown

/-- The internal reset from intent.go, which reverts a (cloned) Intent to its
origin: Wanted and Active become Unknown and State becomes Unknown. In Go it
mutates the receiver; here it returns the updated value. -/
def Intent.reset (i : Intent) : Intent :=
  { i with Wanted := NodeActionUnknown
           Active := NodeActionUnknown
           State := NodeStateUnknown }

/-- Projected from intent.go: clone, reset first when in an unknown state,
then set Wanted to the progression-table result for Wanted (the Go code
assigns the returned value and discards the error). -/
def Intent.Projected (i : Intent) : Intent :=
  let p := i.Clone
  let p := if p.inUnknownState then p.reset else p
  { p with Wanted := (calculateNext p.Wanted).1 }

/-- projectActive from intent.go: clone, overwrite Wanted with Active, then
project. -/
def Intent.projectActive (i : Intent) : Intent :=
  let prior := i.Clone
  ({ prior with Wanted := i.Active }).Projected

/-- Realized from intent.go: Wanted equals Active, not Errored, and
Waiting. -/
def Intent.Realized (i : Intent) : Bool :=
  (i.Wanted = i.Active) && !i.Errored && i.Waiting

/-- InProgress from intent.go: Active is a real progression action, the
Intent is not Realized, and the forward projection from Active yields the
current Wanted. -/
def Intent.InProgress (i : Intent) : Bool :=
  i.isInProgress i.Active && (!i.Realized && (i.projectActive.Wanted = i.Wanted))

/-- Stuck from intent.go: either Active differs from Wanted with no progress
in explanation, or Wanted is not the forward projection from Active. -/
def Intent.Stuck (i : Intent) : Bool :=
  ((i.Active ≠ i.Wanted) && !i.InProgress) || (i.Wanted ≠ i.projectActive.Wanted)

/-- Terminal from intent.go: a failed table lookup is not terminal; otherwise
the successor of Wanted equals Wanted and Wanted equals Active. -/
def Intent.Terminal (i : Intent) : Bool :=
  let r := calculateNext i.Wanted
  if !r.2 then false
  else r.1 = i.Wanted && i.Wanted = i.Active

/-- Actionable from intent.go: can progress (Waiting or Realized, and not
Terminal), or in an unknown state, or Stuck. -/
def Intent.Actionable (i : Intent) : Bool :=
  ((i.Waiting || i.Realized) && !i.Terminal) || i.inUnknownState || i.Stuck

/-- Reset from intent.go: clone, revert to the origin, then project. -/
def Intent.Reset (i : Intent) : Intent :=
  ((i.Clone).reset).Projected

/-- The successor relation induced by the Progression Table: b is the
successfully computed successor of a. -/
def nextIs (a b : String) : Prop := calculateNext a = (b, true)

/-- Clone is the identity on Intent values: the annotation round-trip
restores every field because the four keys are distinct. -/
theorem Intent.clone_eq (i : Intent) : i.Clone = i := rfl

/-- A failed table lookup returns the zero Action (the empty string). -/
theorem calculateNext_fst_of_failed (a : String)
    (h : (calculateNext a).2 = false) : (calculateNext a).1 = "" := by
  unfold calculateNext at h ⊢
  split_ifs at h ⊢
  all_goals simp_all

/-- Claim C2: constructing an Intent through Given from an input exposing the
original NodeName and GetAnnotations restores Wanted, Active, State and
UpdateAvailable (serialization round-trip). -/
theorem given_roundtrip (i : Intent) :
    (Given i.GetName i.GetAnnotations).Wanted = i.Wanted ∧
    (Given i.GetName i.GetAnnotations).Active = i.Active ∧
    (Given i.GetName i.GetAnnotations).State = i.State ∧
    (Given i.GetName i.GetAnnotations).UpdateAvailable = i.UpdateAvailable :=
  ⟨rfl, rfl, rfl, rfl⟩

/-- Claim C5: the Intent with Wanted and Active Unknown and empty State is
Waiting and Actionable, and its projection wants the Reset action. -/
theorem unknown_intent_scenario :
    ({ NodeName := "n", Wanted := NodeActionUnknown, Active := NodeActionUnknown,
       State := "", UpdateAvailable := "" } : Intent).Waiting = true ∧
    ({ NodeName := "n", Wanted := NodeActionUnknown, Active := NodeActionUnknown,
       State := "", UpdateAvailable := "" } : Intent).Actionable = true ∧
    ({ NodeName := "n", Wanted := NodeActionUnknown, Active := NodeActionUnknown,
       State := "", UpdateAvailable := "" } : Intent).Projected.Wanted
      = NodeActionReset := by
  refine ⟨by decide, by decide, by decide⟩

/-- Claim C6: Reset always yields Wanted equal to the Reset action (the first
forward-progression element) with Active and State at the cleared origin. -/
theorem reset_origin (i : Intent) :
    i.Reset.Wanted = NodeActionReset ∧ i.Reset.Active = NodeActionUnknown ∧
    i.Reset.State = NodeStateUnknown :=
  ⟨rfl, rfl, rfl⟩

/-- Claim C9: the completely unset Intent (Wanted and Active Unknown, empty
State) is classified as Realized: Wanted equals Active, it is not Errored,
and it is Waiting. -/
theorem unset_intent_realized :
    ({ NodeName := "n", Wanted := NodeActionUnknown, Active := NodeActionUnknown,
       State := "", UpdateAvailable := "" } : Intent).Realized = true ∧
    ({ NodeName := "n", Wanted := NodeActionUnknown, Active := NodeActionUnknown,
       State := "", UpdateAvailable := "" } : Intent).Waiting = true ∧
    ({ NodeName := "n", Wanted := NodeActionUnknown, Active := NodeActionUnknown,
       State := "", UpdateAvailable := "" } : Intent).Errored = false := by
  refine ⟨by decide, by decide, by decide⟩

/-- Claim C1 counterexample: Realized does not imply not Stuck; the Intent
with Wanted and Active PerformUpdate and State Ready is Realized yet Stuck,
because its Wanted differs from the forward projection from Active. -/
theorem realized_not_stuck_counterexample :
    ¬ (∀ i : Intent, i.Realized = true → i.Stuck = false) ∧
    ({ NodeName := "n", Wanted := NodeActionPerformUpdate,
       Active := NodeActionPerformUpdate, State := NodeStateReady,
       UpdateAvailable := "" } : Intent).Realized = true ∧
    ({ NodeName := "n", Wanted := NodeActionPerformUpdate,
       Active := NodeActionPerformUpdate, State := NodeStateReady,
       UpdateAvailable := "" } : Intent).Stuck = true := by
  refine ⟨fun h => ?_, by decide, by decide⟩
  have hb := h { NodeName := "n", Wanted := NodeActionPerformUpdate,
                 Active := NodeActionPerformUpdate, State := NodeStateReady,
                 UpdateAvailable := "" } (by decide)
  exact absurd hb (by decide)

/-- Claim C1 amended: for a Realized Intent the inconsistent-progress
disjunct of Stuck is vacuous, so Stuck holds exactly when Wanted differs from
the forward projection from Active; the Scenario B Intent (PerformUpdate,
PerformUpdate, Ready) is Realized, Stuck, and not Terminal. -/
theorem realized_stuck_amended :
    (∀ i : Intent, i.Realized = true →
      (i.Stuck = true ↔ i.Wanted ≠ i.projectActive.Wanted)) ∧
    ({ NodeName := "n", Wanted := NodeActionPerformUpdate,
       Active := NodeActionPerformUpdate, State := NodeStateReady,
       UpdateAvailable := "" } : Intent).Realized = true ∧
    ({ NodeName := "n", Wanted := NodeActionPerformUpdate,
       Active := NodeActionPerformUpdate, State := NodeStateReady,
       UpdateAvailable := "" } : Intent).Stuck = true ∧
    ({ NodeName := "n", Wanted := NodeActionPerformUpdate,
       Active := NodeActionPerformUpdate, State := NodeStateReady,
       UpdateAvailable := "" } : Intent).Terminal = false := by
  refine ⟨fun i h => ?_, by decide, by decide, by decide⟩
  have hwa : i.Wanted = i.Active := by
    simp [Intent.Realized] at h
    exact h.1.1
  simp [Intent.Stuck, hwa]

/-- Claim C1 amended witness: the amended equivalence applied at the
Scenario B Intent. -/
theorem realized_stuck_amended_witness :
    ({ NodeName := "n", Wanted := NodeActionPerformUpdate,
       Active := NodeActionPerformUpdate, State := NodeStateReady,
       UpdateAvailable := "" } : Intent).Realized = true ∧
    (({ NodeName := "n", Wanted := NodeActionPerformUpdate,
        Active := NodeActionPerformUpdate, State := NodeStateReady,
        UpdateAvailable := "" } : Intent).Stuck = true ↔
     ({ NodeName := "n", Wanted := NodeActionPerformUpdate,
        Active := NodeActionPerformUpdate, State := NodeStateReady,
        UpdateAvailable := "" } : Intent).Wanted ≠
     ({ NodeName := "n", Wanted := NodeActionPerformUpdate,
        Active := NodeActionPerformUpdate, State := NodeStateReady,
        UpdateAvailable := "" } : Intent).projectActive.Wanted) :=
  ⟨by decide, realized_stuck_amended.1
    { NodeName := "n", Wanted := NodeActionPerformUpdate,
      Active := NodeActionPerformUpdate, State := NodeStateReady,
      UpdateAvailable := "" } (by decide)⟩

/-- Claim C3: Terminal holds exactly when the Progression Table successfully
yields Wanted itself as the successor of Wanted and Wanted equals Active; the
Scenario D Intent (RebootUpdate, RebootUpdate, Ready) is Realized, Terminal,
and not Actionable. -/
theorem terminal_iff_successor :
    (∀ i : Intent, i.Terminal = true ↔
      (nextIs i.Wanted i.Wanted ∧ i.Wanted = i.Active)) ∧
    ({ NodeName := "n", Wanted := NodeActionRebootUpdate,
       Active := NodeActionRebootUpdate, State := NodeStateReady,
       UpdateAvailable := "" } : Intent).Realized = true ∧
    ({ NodeName := "n", Wanted := NodeActionRebootUpdate,
       Active := NodeActionRebootUpdate, State := NodeStateReady,
       UpdateAvailable := "" } : Intent).Terminal = true ∧
    ({ NodeName := "n", Wanted := NodeActionRebootUpdate,
       Active := NodeActionRebootUpdate, State := NodeStateReady,
       UpdateAvailable := "" } : Intent).Actionable = false := by
  refine ⟨fun i => ?_, by decide, by decide, by decide⟩
  unfold Intent.Terminal nextIs
  rcases hc : calculateNext i.Wanted with ⟨v, ok⟩
  cases ok
  · simp [hc]
  · simp [hc, Bool.and_eq_true, decide_eq_true_iff, Prod.mk.injEq, and_comm]

/-- Claim C4 counterexample: for an Intent whose Wanted is outside the
recognized Action enumeration and whose State is not unknown, the table
lookup fails and Projected changes Wanted to the zero Action (the empty
string) rather than leaving it unchanged. -/
theorem unrecognized_projected_counterexample :
    (calculateNext ({ NodeName := "n", Wanted := "bogus", Active := "bogus",
                      State := NodeStateReady,
                      UpdateAvailable := "" } : Intent).Wanted).2
      = false ∧
    ({ NodeName := "n", Wanted := "bogus", Active := "bogus",
       State := NodeStateReady, UpdateAvailable := "" } : Intent).inUnknownState
      = false ∧
    ({ NodeName := "n", Wanted := "bogus", Active := "bogus",
       State := NodeStateReady, UpdateAvailable := "" } : Intent).Projected.Wanted
      ≠ ({ NodeName := "n", Wanted := "bogus", Active := "bogus",
           State := NodeStateReady, UpdateAvailable := "" } : Intent).Wanted := by
  refine ⟨by decide, by decide, by decide⟩

/-- Claim C4 amended: when the table lookup for Wanted fails and the Intent
is not in an unknown state (so no internal reset replaces Wanted), Terminal
returns false without failing, and Projected returns an Intent whose Wanted
is the zero Action (the empty string) with every other field unchanged; no
operation panics or propagates an error. -/
theorem unrecognized_defensive_amended (i : Intent)
    (h1 : (calculateNext i.Wanted).2 = false)
    (h2 : i.inUnknownState = false) :
    i.Terminal = false ∧ i.Projected.Wanted = "" ∧
    i.Projected.Active = i.Active ∧ i.Projected.State = i.State ∧
    i.Projected.UpdateAvailable = i.UpdateAvailable ∧
    i.Projected.NodeName = i.NodeName := by
  have hz := calculateNext_fst_of_failed i.Wanted h1
  refine ⟨?_, ?_, ?_, ?_, ?_, ?_⟩
  · simp [Intent.Terminal, h1]
  all_goals simp [Intent.Projected, Intent.clone_eq, h2, hz]

/-- Claim C4 amended witness: the amended statement applied at a concrete
Intent with an unrecognized Wanted token. -/
theorem unrecognized_defensive_amended_witness :
    (calculateNext ({ NodeName := "n", Wanted := "bogus", Active := "bogus",
                      State := NodeStateReady,
                      UpdateAvailable := "" } : Intent).Wanted).2
      = false ∧
    ({ NodeName := "n", Wanted := "bogus", Active := "bogus",
       State := NodeStateReady, UpdateAvailable := "" } : Intent).inUnknownState
      = false ∧
    ({ NodeName := "n", Wanted := "bogus", Active := "bogus",
       State := NodeStateReady, UpdateAvailable := "" } : Intent).Terminal
      = false ∧
    ({ NodeName := "n", Wanted := "bogus", Active := "bogus",
       State := NodeStateReady, UpdateAvailable := "" } : Intent).Projected.Wanted
      = "" :=
  ⟨by decide, by decide,
   (unrecognized_defensive_amended
     { NodeName := "n", Wanted := "bogus", Active := "bogus",
       State := NodeStateReady, UpdateAvailable := "" }
     (by decide) (by decide)).1,
   (unrecognized_defensive_amended
     { NodeName := "n", Wanted := "bogus", Active := "bogus",
       State := NodeStateReady, UpdateAvailable := "" }
     (by decide) (by decide)).2.1⟩

/-- Claim C7: for an Intent whose State is neither empty nor Unknown,
Projected changes at most Wanted; Active, State, UpdateAvailable and
NodeName are preserved. -/
theorem projected_frame (i : Intent)
    (h1 : i.State ≠ "") (h2 : i.State ≠ NodeStateUnknown) :
    i.Projected.Active = i.Active ∧ i.Projected.State = i.State ∧
    i.Projected.UpdateAvailable = i.UpdateAvailable ∧
    i.Projected.NodeName = i.NodeName := by
  have hu : i.inUnknownState = false := by
    simp [Intent.inUnknownState, h1, h2]
  refine ⟨?_, ?_, ?_, ?_⟩
  all_goals simp [Intent.Projected, Intent.clone_eq, hu]

/-- Claim C7 witness: the frame property applied at a concrete Intent whose
State is Ready. -/
theorem projected_frame_witness :
    ({ NodeName := "n", Wanted := NodeActionReset, Active := NodeActionReset,
       State := NodeStateReady, UpdateAvailable := "" } : Intent).State ≠ "" ∧
    ({ NodeName := "n", Wanted := NodeActionReset, Active := NodeActionReset,
       State := NodeStateReady, UpdateAvailable := "" } : Intent).State
      ≠ NodeStateUnknown ∧
    ({ NodeName := "n", Wanted := NodeActionReset, Active := NodeActionReset,
       State := NodeStateReady, UpdateAvailable := "" } : Intent).Projected.State
      = NodeStateReady :=
  ⟨by decide, by decide,
   (projected_frame
     { NodeName := "n", Wanted := NodeActionReset, Active := NodeActionReset,
       State := NodeStateReady, UpdateAvailable := "" }
     (by decide) (by decide)).2.1⟩

/-- Claim C8: Waiting holds exactly when State is Ready, empty, Unknown or
Error; the Scenario C Intent (RebootUpdate wanted, PrepareUpdate active,
Error state) is Errored, Waiting and Stuck. -/
theorem waiting_iff_scenario :
    (∀ i : Intent, i.Waiting = true ↔
      (i.State = NodeStateReady ∨ i.State = "" ∨
       i.State = NodeStateUnknown ∨ i.State = NodeStateError)) ∧
    ({ NodeName := "n", Wanted := NodeActionRebootUpdate,
       Active := NodeActionPrepareUpdate, State := NodeStateError,
       UpdateAvailable := "" } : Intent).Errored = true ∧
    ({ NodeName := "n", Wanted := NodeActionRebootUpdate,
       Active := NodeActionPrepareUpdate, State := NodeStateError,
       UpdateAvailable := "" } : Intent).Waiting = true ∧
    ({ NodeName := "n", Wanted := NodeActionRebootUpdate,
       Active := NodeActionPrepareUpdate, State := NodeStateError,
       UpdateAvailable := "" } : Intent).Stuck = true := by
  refine ⟨fun i => ?_, by decide, by decide, by decide⟩
  simp [Intent.Waiting]
  tauto

/-- Claim C10: for an Intent whose State is empty or Unknown, the forward
projection from Active always wants the Reset action, regardless of Active;
hence such an Intent whose Wanted is not Reset is Stuck. -/
theorem unknown_state_projectActive (i : Intent)
    (h : i.State = "" ∨ i.State = NodeStateUnknown) :
    i.projectActive.Wanted = NodeActionReset ∧
    (i.Wanted ≠ NodeActionReset → i.Stuck = true) := by
  have hp : i.projectActive.Wanted = NodeActionReset := by
    rcases h with h | h
    all_goals simp [Intent.projectActive, Intent.Projected, Intent.clone_eq,
      Intent.inUnknownState, Intent.reset, calculateNext, h]
  refine ⟨hp, fun hw => ?_⟩
  simp [Intent.Stuck, hp, hw]

/-- Claim C10 witness: the projection and stuckness applied at a concrete
Intent with empty State, Active PerformUpdate and Wanted Stabilize. -/
theorem unknown_state_projectActive_witness :
    ({ NodeName := "n", Wanted := NodeActionStablize,
       Active := NodeActionPerformUpdate, State := "",
       UpdateAvailable := "" } : Intent).projectActive.Wanted
      = NodeActionReset ∧
    ({ NodeName := "n", Wanted := NodeActionStablize,
       Active := NodeActionPerformUpdate, State := "",
       UpdateAvailable := "" } : Intent).Stuck = true :=
  ⟨(unknown_state_projectActive
     { NodeName := "n", Wanted := NodeActionStablize,
       Active := NodeActionPerformUpdate, State := "",
       UpdateAvailable := "" } (Or.inl rfl)).1,
   (unknown_state_projectActive
     { NodeName := "n", Wanted := NodeActionStablize,
       Active := NodeActionPerformUpdate, State := "",
       UpdateAvailable := "" } (Or.inl rfl)).2 (by decide)⟩
